import Mathlib

/-!
Verification development for the dcms_engagement repository.

The repository's executable core is the notebook
`notebooks/eventclf/LLM Experiment.ipynb` (the LLM event-attendance
experiment loop) together with the `location_data` package documented in
`location_data/README.md`.  This file gives a shallow embedding of the
relevant code: LLM predictions are lists of `Option ℤ` (with `none`
playing the role of the floating-point NaN produced for non-parseable
model output), ground-truth labels are lists of `ℤ`, and the sklearn
metric functions are embedded over `ℚ`.
-/

set_option maxHeartbeats 1000000

namespace DCMS

/-! ## Notebook post-processing

Source (`LLM Experiment.ipynb`, experiment-loop cell):

  res_clean = np.array([abs(1-event_dict[f"y_{run}"][idx]) if np.isnan(i)
                        else i for idx,i in enumerate(res)])
-/

/-- Embedding of
`res_clean = np.array([abs(1-y[idx]) if np.isnan(i) else i for idx,i in enumerate(res)])`.
A raw prediction is `Option ℤ`, `none` standing for NaN. -/
def res_clean (res : List (Option ℤ)) (y : List ℤ) : List ℤ :=
  res.enum.map (fun p =>
    match p.2 with
    | none => |1 - y.getD p.1 0|
    | some v => v)

/-- Per-element cleanup used to relate `res_clean` to a structural
recursion: NaN becomes the flipped label, a parsed value passes through. -/
def cleanF (o : Option ℤ) (l : ℤ) : ℤ :=
  match o with
  | none => |1 - l|
  | some v => v

/-- Number of NaN entries in a raw prediction list. -/
def nanCount (res : List (Option ℤ)) : ℕ :=
  res.countP (fun o => o.isNone)

/-- Number of positions where prediction and ground truth agree. -/
def matchCount (y : List ℤ) (p : List ℤ) : ℕ :=
  (y.zip p).countP (fun q => q.1 == q.2)

/-! ## sklearn metrics (binary, pos_label = 1)

Source cell:
  "f1":f1_score(event_dict[f"y_{run}"],res_clean),
  "precision":precision_score(event_dict[f"y_{run}"],res_clean),
  "recall":recall_score(event_dict[f"y_{run}"],res_clean),
  "accuracy":accuracy_score(event_dict[f"y_{run}"],res_clean)
-/

/-- True positives for positive class 1. -/
def truePos (y_true y_pred : List ℤ) : ℕ :=
  (y_true.zip y_pred).countP (fun q => q.1 == 1 && q.2 == 1)

/-- False positives for positive class 1. -/
def falsePos (y_true y_pred : List ℤ) : ℕ :=
  (y_true.zip y_pred).countP (fun q => !(q.1 == 1) && q.2 == 1)

/-- False negatives for positive class 1. -/
def falseNeg (y_true y_pred : List ℤ) : ℕ :=
  (y_true.zip y_pred).countP (fun q => q.1 == 1 && !(q.2 == 1))

/-- sklearn `accuracy_score`: fraction of positions where the prediction
equals the label. -/
def accuracy_score (y_true y_pred : List ℤ) : ℚ :=
  (matchCount y_true y_pred : ℚ) / (y_true.length : ℚ)

/-- sklearn `precision_score` with `pos_label=1` (0 when no positive
predictions, matching sklearn's zero-division default). -/
def precision_score (y_true y_pred : List ℤ) : ℚ :=
  if truePos y_true y_pred + falsePos y_true y_pred = 0 then 0
  else (truePos y_true y_pred : ℚ) / ((truePos y_true y_pred + falsePos y_true y_pred : ℕ) : ℚ)

/-- sklearn `recall_score` with `pos_label=1`. -/
def recall_score (y_true y_pred : List ℤ) : ℚ :=
  if truePos y_true y_pred + falseNeg y_true y_pred = 0 then 0
  else (truePos y_true y_pred : ℚ) / ((truePos y_true y_pred + falseNeg y_true y_pred : ℕ) : ℚ)

/-- sklearn `f1_score` with `pos_label=1`, in the
`2*TP / (2*TP + FP + FN)` form. -/
def f1_score (y_true y_pred : List ℤ) : ℚ :=
  if 2 * truePos y_true y_pred + falsePos y_true y_pred + falseNeg y_true y_pred = 0 then 0
  else (2 * truePos y_true y_pred : ℚ) /
    ((2 * truePos y_true y_pred + falsePos y_true y_pred + falseNeg y_true y_pred : ℕ) : ℚ)

/-! ## Basic structure of `res_clean` -/

theorem res_clean_length (res : List (Option ℤ)) (y : List ℤ) :
    (res_clean res y).length = res.length := by
  simp [res_clean]

theorem res_clean_eq_zipWith (res : List (Option ℤ)) (y : List ℤ)
    (h : res.length = y.length) :
    res_clean res y = List.zipWith cleanF res y := by
  apply List.ext_getElem
  · simp [res_clean_length, h]
  · intro i h1 h2
    have hi : i < res.length := by simpa [res_clean_length] using h1
    have hiy : i < y.length := h ▸ hi
    simp [res_clean, cleanF, List.getD, List.getElem?_eq_getElem hiy]

theorem flip_ne (l : ℤ) (h : l = 0 ∨ l = 1) : |1 - l| ≠ l := by
  rcases h with h | h <;> subst h <;> decide

theorem matchCount_zipWith_add_nanCount_le (res : List (Option ℤ)) (y : List ℤ)
    (hlen : res.length = y.length) (hy : ∀ l ∈ y, l = 0 ∨ l = 1) :
    matchCount y (List.zipWith cleanF res y) + nanCount res ≤ res.length := by
  induction res generalizing y with
  | nil => simp [matchCount, nanCount]
  | cons a res ih =>
    cases y with
    | nil => simp at hlen
    | cons b y =>
      have hlen' : res.length = y.length := by simpa using hlen
      have hyb : b = 0 ∨ b = 1 := hy b (by simp)
      have hy' : ∀ l ∈ y, l = 0 ∨ l = 1 := fun l hl => hy l (by simp [hl])
      have hrec := ih y hlen' hy'
      simp only [matchCount, nanCount] at hrec ⊢
      cases a with
      | some v =>
        simp only [List.zipWith_cons_cons, List.zip_cons_cons, List.countP_cons, cleanF,
          Option.isNone_some, List.length_cons]
        norm_num
        split <;> omega
      | none =>
        have hne : (b == cleanF none b) = false := by
          simp only [cleanF, beq_eq_false_iff_ne, ne_eq]
          exact fun hb => flip_ne b hyb hb.symm
        simp only [List.zipWith_cons_cons, List.zip_cons_cons, List.countP_cons,
          List.length_cons, Option.isNone_none, hne]
        norm_num
        omega

theorem res_clean_getD (res : List (Option ℤ)) (y : List ℤ)
    (hlen : res.length = y.length) (i : ℕ) (hi : i < res.length) :
    (res_clean res y).getD i 0 = cleanF (res.getD i none) (y.getD i 0) := by
  have hiy : i < y.length := hlen ▸ hi
  have hiz : i < (List.zipWith cleanF res y).length := by
    rw [List.length_zipWith]; omega
  have hres : res.getD i none = res.get ⟨i, hi⟩ := by
    rw [List.getD_eq_getElem _ _ hi]; rfl
  have hyd : y.getD i 0 = y.get ⟨i, hiy⟩ := by
    rw [List.getD_eq_getElem _ _ hiy]; rfl
  rw [res_clean_eq_zipWith res y hlen, List.getD_eq_getElem _ _ hiz, hres, hyd]
  simp [List.getElem_zipWith]

/-- C1: for raw predictions `res` and same-length binary ground truth `y`,
the cleaned array has the flipped label `|1 - y[i]|` at every NaN position
and the raw prediction everywhere else. -/
theorem res_clean_spec (res : List (Option ℤ)) (y : List ℤ)
    (hlen : res.length = y.length)
    (hy : ∀ l ∈ y, l = 0 ∨ l = 1) :
    ∀ i, i < res.length →
      (res.getD i none = none → (res_clean res y).getD i 0 = |1 - y.getD i 0|) ∧
      (∀ v, res.getD i none = some v → (res_clean res y).getD i 0 = v) := by
  intro i hi
  constructor
  · intro hnone
    rw [res_clean_getD res y hlen i hi, hnone]
    rfl
  · intro v hv
    rw [res_clean_getD res y hlen i hi, hv]
    rfl

theorem res_clean_spec_witness :
    (res_clean [some 1, none, some 0] [1, 0, 1]).getD 1 0
      = |1 - ([1, 0, 1] : List ℤ).getD 1 0| :=
  (res_clean_spec [some 1, none, some 0] [1, 0, 1] (by decide)
    (by decide) 1 (by decide)).1 (by decide)

/-- C2: every NaN entry becomes a misclassification after cleanup, so the
match count is bounded by the number of non-NaN entries and the accuracy
score is bounded by their fraction. -/
theorem nan_entries_lower_accuracy (res : List (Option ℤ)) (y : List ℤ)
    (hlen : res.length = y.length)
    (hy : ∀ l ∈ y, l = 0 ∨ l = 1) :
    (∀ i, i < res.length → res.getD i none = none →
      (res_clean res y).getD i 0 ≠ y.getD i 0) ∧
    matchCount y (res_clean res y) + nanCount res ≤ res.length ∧
    accuracy_score y (res_clean res y) ≤
      ((res.length - nanCount res : ℕ) : ℚ) / (res.length : ℚ) := by
  have hcount : matchCount y (res_clean res y) + nanCount res ≤ res.length := by
    rw [res_clean_eq_zipWith res y hlen]
    exact matchCount_zipWith_add_nanCount_le res y hlen hy
  refine ⟨?_, hcount, ?_⟩
  · intro i hi hnone
    have hiy : i < y.length := hlen ▸ hi
    have hflip : (res_clean res y).getD i 0 = |1 - y.getD i 0| := by
      rw [res_clean_getD res y hlen i hi, hnone]
      rfl
    rw [hflip]
    have hmem : y.getD i 0 ∈ y := by
      rw [List.getD_eq_getElem _ _ hiy]
      exact List.getElem_mem hiy
    exact flip_ne (y.getD i 0) (hy _ hmem)
  · rw [accuracy_score, hlen]
    rcases Nat.eq_zero_or_pos y.length with h0 | hpos
    · simp [h0]
    · have hq : (0 : ℚ) < (y.length : ℚ) := by exact_mod_cast hpos
      rw [div_le_div_iff_of_pos_right hq]
      have hsub : ((y.length - nanCount res : ℕ) : ℚ)
          = (y.length : ℚ) - (nanCount res : ℚ) := by
        have : nanCount res ≤ y.length := by omega
        exact Nat.cast_sub this
      rw [hsub]
      have : matchCount y (res_clean res y) ≤ y.length - nanCount res := by omega
      have hc : (matchCount y (res_clean res y) : ℚ)
          ≤ ((y.length - nanCount res : ℕ) : ℚ) := by exact_mod_cast this
      rw [hsub] at hc
      exact hc

theorem nan_entries_lower_accuracy_witness :
    accuracy_score [1, 0, 1] (res_clean [some 1, none, some 0] [1, 0, 1]) ≤
      ((([some 1, none, some 0] : List (Option ℤ)).length
        - nanCount [some 1, none, some 0] : ℕ) : ℚ)
      / ((([some 1, none, some 0] : List (Option ℤ)).length : ℕ) : ℚ) :=
  (nan_entries_lower_accuracy [some 1, none, some 0] [1, 0, 1]
    (by decide) (by decide)).2.2

/-! ## LLM prediction wrapper

The notebook imports `EventLLM` from `eventclf.v2.models.event_llm.event_llm`;
that module is not part of this repository snapshot, so the wrapper is
modelled from the spec.  The prompt template, however, is defined literally
in the notebook cell that overwrites `EVENT_ATTENTENCE_TEMPLATE`.
-/

/-- Prompt inputs passed to `EventLLM.predict` as `prompt_inputs`
(the notebook's `prompt_dict`). -/
structure PromptInputs where
  event : String
  event_description : String
  examples : String

/-- The literal prompt template from the notebook cell. -/
def EVENT_ATTENTENCE_TEMPLATE : String :=
"
Your task is to determine whether a social media posts suggests that the author or another person attended a particular event.

{event} is {event_description}

{examples}

Instructions:
   - Yes: Consider the event description provided. Classify as \"Yes\" if it includes mention or implication that the author participated in or will participate in, or was physically present at the event.
   - No: Classify as \"No\" if the social media post does not suggest the author attended the event, it is about the event but does not indicate past or future attendance.

Ensure the post references the specific event and indicates the poster being physically present
Return only either \"Yes\" or \"No\"


Post: {post}

Response:
"

/-- Modelled from the spec: the wrapper formats the prompt template with
event metadata and the post (Python `str.format` parameter substitution
over the four placeholders). -/
def formatPrompt (template : String) (inputs : PromptInputs) (post : String) : String :=
  (((template.replace "{event}" inputs.event).replace
      "{event_description}" inputs.event_description).replace
      "{examples}" inputs.examples).replace "{post}" post

/-- Modelled from the spec: parsing of the model's text output, mapping
\"Yes\" to the binary label 1 and \"No\" to 0, with NaN (here none) as
fallback for any other, non-parseable output. -/
def parseResponse (s : String) : Option ℤ :=
  if s = "Yes" then some 1 else if s = "No" then some 0 else none

/-- Modelled from the spec: `EventLLM.predict` formats one prompt per post,
calls the pretrained model (abstracted as `llm : String → String`, the text
the model returns for a full prompt; fixed-size batching does not change
the per-post outputs) and parses each output, returning one value per post
in order. -/
def EventLLM.predict (llm : String → String) (prompt_template : String)
    (prompt_inputs : PromptInputs) (posts : List String) : List (Option ℤ) :=
  posts.map (fun post => parseResponse (llm (formatPrompt prompt_template prompt_inputs post)))

/-! ## The experiment loop

Source cell:

  res_list = []
  for event,event_dict in data_dict.items():
      for examples in [event_dict['examples'],""]:
          prompt_dict = {...}
          for run in ['train','test']:
              res = event_llm.predict(...)
              res_clean = np.array([...])
              res_dict = {"event":event, "stratagy": "few shot" if len(examples) > 0 else "zero shot",
                          "run":run, "res":res, "f1":..., "precision":..., "recall":..., "accuracy":...}
              res_list.append(res_dict)
-/

/-- Per-event data assembled by the notebook's data-loading cells. -/
structure EventDict where
  event : String
  event_description : String
  examples : String
  X_train : List String
  X_test : List String
  y_train : List ℤ
  y_test : List ℤ

/-- The notebook's `event_dict[f"X_{run}"]` lookup for the two run values
used by the loop. -/
def runPosts (d : EventDict) (run : String) : List String :=
  if run = "train" then d.X_train else d.X_test

/-- The notebook's `event_dict[f"y_{run}"]` lookup for the two run values
used by the loop. -/
def runLabels (d : EventDict) (run : String) : List ℤ :=
  if run = "train" then d.y_train else d.y_test

/-- One entry of `res_list` (the dict literal `res_dict`). -/
structure ResDict where
  event : String
  stratagy : String
  run : String
  res : List (Option ℤ)
  f1 : ℚ
  precision : ℚ
  «recall» : ℚ
  accuracy : ℚ

/-- JSON-style values, to express the dict's key/value view. -/
inductive JValue where
  | str (s : String)
  | num (q : ℚ)
  | arr (l : List (Option ℤ))

/-- Key/value pairs of `res_dict`, in the order of the dict literal. -/
def ResDict.toPairs (r : ResDict) : List (String × JValue) :=
  [("event", .str r.event), ("stratagy", .str r.stratagy), ("run", .str r.run),
   ("res", .arr r.res), ("f1", .num r.f1), ("precision", .num r.precision),
   ("recall", .num r.«recall»), ("accuracy", .num r.accuracy)]

/-- The body of the innermost loop iteration: predict, clean, score, and
build `res_dict`. -/
def mkResDict (llm : String → String) (event : String) (d : EventDict)
    (examples run : String) : ResDict :=
  let res := EventLLM.predict llm EVENT_ATTENTENCE_TEMPLATE
    ⟨d.event, d.event_description, examples⟩ (runPosts d run)
  let rc := res_clean res (runLabels d run)
  { event := event,
    stratagy := if examples.length > 0 then "few shot" else "zero shot",
    run := run,
    res := res,
    f1 := f1_score (runLabels d run) rc,
    precision := precision_score (runLabels d run) rc,
    «recall» := recall_score (runLabels d run) rc,
    accuracy := accuracy_score (runLabels d run) rc }

/-- The event keys of `data_dict` (`data_lists` in the notebook). -/
def data_lists : List String := ["farnborough", "rugby"]

/-- The whole experiment loop: events in `data_dict` order, then
`[event_dict['examples'], ""]`, then `['train','test']`. -/
def buildResList (llm : String → String) (data : List (String × EventDict)) : List ResDict :=
  data.flatMap (fun p =>
    [p.2.examples, ""].flatMap (fun ex =>
      ["train", "test"].map (fun run => mkResDict llm p.1 p.2 ex run)))

/-- Content written by `json.dump(res_list, fp)` to `llm_results.json`:
the complete `res_list`. -/
def llm_results_file (llm : String → String) (data : List (String × EventDict)) : List ResDict :=
  buildResList llm data

/-- Mutable state visible to one innermost loop iteration: the current
event's dict and the accumulated `res_list`. -/
structure ExpState where
  event_dict : EventDict
  res_list : List ResDict

/-- One innermost iteration as a state transformer: it appends `res_dict`
to `res_list` and touches nothing else (the source assigns no field of
`event_dict` and never rebinds `res` after storing it). -/
def loopBody (llm : String → String) (event examples run : String)
    (s : ExpState) : ExpState :=
  { s with res_list := s.res_list ++ [mkResDict llm event s.event_dict examples run] }

theorem string_length_pos (s : String) (h : s ≠ "") : 0 < s.length := by
  cases s with
  | mk l =>
    cases l with
    | nil => exact absurd rfl h
    | cons c cs => simp [String.length]

/-- Concrete event data used to instantiate hypotheses at witnesses. -/
def sampleEvent : EventDict :=
  { event := "E", event_description := "D", examples := "ex",
    X_train := ["a", "b"], X_test := ["c"],
    y_train := [1, 0], y_test := [1] }

/-- C3: `EventLLM.predict` returns one value per post in order, parsing a
model output of \"Yes\" to 1, \"No\" to 0, and anything else to NaN. -/
theorem predict_parses_outputs (llm : String → String) (tmpl : String)
    (ins : PromptInputs) (posts : List String) :
    (EventLLM.predict llm tmpl ins posts).length = posts.length ∧
    (∀ i, i < posts.length →
      (EventLLM.predict llm tmpl ins posts).getD i none
        = parseResponse (llm (formatPrompt tmpl ins (posts.getD i "")))) ∧
    (∀ s, (s = "Yes" → parseResponse s = some 1) ∧
          (s = "No" → parseResponse s = some 0) ∧
          (s ≠ "Yes" → s ≠ "No" → parseResponse s = none)) := by
  refine ⟨by simp [EventLLM.predict], ?_, ?_⟩
  · intro i hi
    have h2 : i < (EventLLM.predict llm tmpl ins posts).length := by
      simpa [EventLLM.predict] using hi
    rw [List.getD_eq_getElem _ _ h2, List.getD_eq_getElem _ _ hi]
    simp [EventLLM.predict]
  · intro s
    refine ⟨fun h => by simp [parseResponse, h], fun h => ?_, fun h1 h2 => ?_⟩
    · subst h; rfl
    · simp [parseResponse, h1, h2]

theorem predict_parses_outputs_witness :
    (EventLLM.predict (fun _ => "maybe") EVENT_ATTENTENCE_TEMPLATE
        ⟨"E", "D", ""⟩ ["p1", "p2"]).getD 0 none
      = parseResponse "maybe" :=
  (predict_parses_outputs (fun _ => "maybe") EVENT_ATTENTENCE_TEMPLATE
    ⟨"E", "D", ""⟩ ["p1", "p2"]).2.1 0 (by decide)

/-- C4: the `stratagy` field of a result record is \"few shot\" exactly when
the examples string passed into the prompt inputs is non-empty, and
\"zero shot\" exactly when it is empty. -/
theorem stratagy_field (llm : String → String) (event : String) (d : EventDict)
    (ex run : String) :
    ((mkResDict llm event d ex run).stratagy = "few shot" ↔ ex ≠ "") ∧
    ((mkResDict llm event d ex run).stratagy = "zero shot" ↔ ex = "") ∧
    (mkResDict llm event d ex run).res
      = EventLLM.predict llm EVENT_ATTENTENCE_TEMPLATE
          ⟨d.event, d.event_description, ex⟩ (runPosts d run) := by
  by_cases h : ex = ""
  · subst h
    have hz : (mkResDict llm event d "" run).stratagy = "zero shot" := rfl
    refine ⟨?_, ?_, rfl⟩
    · rw [hz]
      constructor
      · intro hfs; exact absurd hfs (by decide)
      · intro hne; exact absurd rfl hne
    · rw [hz]; simp
  · have hpos : 0 < ex.length := string_length_pos ex h
    have hz : (mkResDict llm event d ex run).stratagy = "few shot" := by
      show (if ex.length > 0 then "few shot" else "zero shot") = "few shot"
      rw [if_pos hpos]
    refine ⟨?_, ?_, rfl⟩
    · rw [hz]; simp [h]
    · rw [hz]
      constructor
      · intro hzs; exact absurd hzs (by decide)
      · intro he; exact absurd he h

theorem stratagy_field_witness :
    (mkResDict (fun _ => "Yes") "farnborough" sampleEvent "x" "train").stratagy
      = "few shot" :=
  (stratagy_field (fun _ => "Yes") "farnborough" sampleEvent "x" "train").1.mpr
    (by decide)

/-- C10: one innermost loop iteration leaves the event dict (in particular
`y_train` and `y_test`) unchanged, only appends to `res_list`, and the
record stores the raw prediction list exactly as `EventLLM.predict`
returned it. -/
theorem loop_preserves_ground_truth (llm : String → String)
    (event ex run : String) (s : ExpState) :
    (loopBody llm event ex run s).event_dict = s.event_dict ∧
    (loopBody llm event ex run s).event_dict.y_train = s.event_dict.y_train ∧
    (loopBody llm event ex run s).event_dict.y_test = s.event_dict.y_test ∧
    (loopBody llm event ex run s).res_list
      = s.res_list ++ [mkResDict llm event s.event_dict ex run] ∧
    (mkResDict llm event s.event_dict ex run).res
      = EventLLM.predict llm EVENT_ATTENTENCE_TEMPLATE
          ⟨s.event_dict.event, s.event_dict.event_description, ex⟩
          (runPosts s.event_dict run) :=
  ⟨rfl, rfl, rfl, rfl, rfl⟩

/-- C5: with `data_dict` holding farnborough and rugby (each with a
non-empty examples string), the loop appends exactly eight records, in
event → strategy → run order, each with the eight dict keys, and the
complete list is the content written to `llm_results.json`. -/
theorem experiment_loop_records (llm : String → String) (d1 d2 : EventDict)
    (data : List (String × EventDict))
    (hdata : data = [("farnborough", d1), ("rugby", d2)])
    (h1 : d1.examples ≠ "") (h2 : d2.examples ≠ "") :
    (buildResList llm data).length = 8 ∧
    (buildResList llm data).map (fun r => (r.event, r.stratagy, r.run)) =
      [("farnborough", "few shot", "train"), ("farnborough", "few shot", "test"),
       ("farnborough", "zero shot", "train"), ("farnborough", "zero shot", "test"),
       ("rugby", "few shot", "train"), ("rugby", "few shot", "test"),
       ("rugby", "zero shot", "train"), ("rugby", "zero shot", "test")] ∧
    (∀ r ∈ buildResList llm data,
      r.toPairs.map Prod.fst =
        ["event", "stratagy", "run", "res", "f1", "precision", "recall", "accuracy"]) ∧
    llm_results_file llm data = buildResList llm data := by
  subst hdata
  have hl1 : 0 < d1.examples.length := string_length_pos d1.examples h1
  have hl2 : 0 < d2.examples.length := string_length_pos d2.examples h2
  refine ⟨by simp [buildResList], ?_, ?_, rfl⟩
  · simp only [buildResList, List.flatMap_cons, List.flatMap_nil, List.map_cons,
      List.map_nil, List.append_nil, List.map_append, mkResDict]
    simp [hl1, hl2]
  · intro r _
    rfl

theorem experiment_loop_records_witness :
    (buildResList (fun _ => "Yes")
        [("farnborough", sampleEvent), ("rugby", sampleEvent)]).length = 8 :=
  (experiment_loop_records (fun _ => "Yes") sampleEvent sampleEvent
    [("farnborough", sampleEvent), ("rugby", sampleEvent)] rfl
    (by decide) (by decide)).1

theorem matchCount_eq_range_countP (y p : List ℤ) (h : y.length = p.length) :
    matchCount y p
      = (List.range y.length).countP (fun i => p.getD i 0 == y.getD i 1) := by
  induction y generalizing p with
  | nil => simp [matchCount]
  | cons b y ih =>
    cases p with
    | nil => simp at h
    | cons c p =>
      have h' : y.length = p.length := by simpa using h
      have hrec := ih p h'
      simp only [matchCount, List.zip_cons_cons, List.countP_cons, List.length_cons,
        List.range_succ_eq_map, List.countP_map] at hrec ⊢
      have hcomm : (b == c) = (c == b) := by
        simp [beq_iff_eq, eq_comm]
      have htail : (List.range y.length).countP
          ((fun i => (c :: p).getD i 0 == (b :: y).getD i 1) ∘ Nat.succ)
          = (List.range y.length).countP (fun i => p.getD i 0 == y.getD i 1) := by
        apply List.countP_congr
        intro i _
        simp [Function.comp, List.getD_cons_succ]
      rw [htail, hcomm] at *
      simp only [List.getD_cons_zero]
      omega

/-- C6: every record's metric fields are the sklearn scores of the cleaned
predictions against that run's ground truth; in particular the accuracy
field equals the fraction of indices where the cleaned prediction matches
the label, and the metrics are functions of `res_clean`, not of the raw
`res` stored in the record. -/
theorem metrics_on_res_clean (llm : String → String) (event : String)
    (d : EventDict) (ex run : String)
    (hlen : (runPosts d run).length = (runLabels d run).length) :
    (mkResDict llm event d ex run).res
      = EventLLM.predict llm EVENT_ATTENTENCE_TEMPLATE
          ⟨d.event, d.event_description, ex⟩ (runPosts d run) ∧
    (mkResDict llm event d ex run).f1
      = f1_score (runLabels d run)
          (res_clean (mkResDict llm event d ex run).res (runLabels d run)) ∧
    (mkResDict llm event d ex run).precision
      = precision_score (runLabels d run)
          (res_clean (mkResDict llm event d ex run).res (runLabels d run)) ∧
    (mkResDict llm event d ex run).«recall»
      = recall_score (runLabels d run)
          (res_clean (mkResDict llm event d ex run).res (runLabels d run)) ∧
    (mkResDict llm event d ex run).accuracy
      = accuracy_score (runLabels d run)
          (res_clean (mkResDict llm event d ex run).res (runLabels d run)) ∧
    (mkResDict llm event d ex run).accuracy
      = (((List.range (runLabels d run).length).countP
          (fun i => (res_clean (mkResDict llm event d ex run).res
              (runLabels d run)).getD i 0 == (runLabels d run).getD i 1) : ℕ) : ℚ)
        / (((runLabels d run).length : ℕ) : ℚ) := by
  refine ⟨rfl, rfl, rfl, rfl, rfl, ?_⟩
  have hres : (mkResDict llm event d ex run).res.length = (runPosts d run).length := by
    simp [mkResDict, EventLLM.predict]
  have hrc : (runLabels d run).length
      = (res_clean (mkResDict llm event d ex run).res (runLabels d run)).length := by
    rw [res_clean_length, hres, hlen]
  have hacc : (mkResDict llm event d ex run).accuracy
      = accuracy_score (runLabels d run)
          (res_clean (mkResDict llm event d ex run).res (runLabels d run)) := rfl
  rw [hacc, accuracy_score,
    matchCount_eq_range_countP _ _ hrc]

theorem metrics_on_res_clean_witness :
    (mkResDict (fun _ => "Yes") "farnborough" sampleEvent "ex" "train").accuracy
      = accuracy_score (runLabels sampleEvent "train")
          (res_clean (mkResDict (fun _ => "Yes") "farnborough" sampleEvent "ex" "train").res
            (runLabels sampleEvent "train")) :=
  (metrics_on_res_clean (fun _ => "Yes") "farnborough" sampleEvent "ex" "train"
    (by decide)).2.2.2.2.1

/-! ## Text cleaning

The notebook imports `_clean_text` from
`eventclf.v2.data_processing.data_processing`; that module is not part of
this repository snapshot. -/

/-- Tokeniser helper: split a character stream at spaces. -/
def splitWordsAux (cur : List Char) : List Char → List (List Char)
  | [] => [cur.reverse]
  | c :: cs => if c = ' ' then cur.reverse :: splitWordsAux [] cs
               else splitWordsAux (c :: cur) cs

/-- Whitespace tokens of a string. -/
def tokenize (s : String) : List String :=
  (splitWordsAux [] s.data).map (fun l => String.mk l)

/-- Whether a token is a URL. -/
def isURL (w : String) : Bool :=
  "http://".data.isPrefixOf w.data || "https://".data.isPrefixOf w.data

/-- Tokens kept by the cleaner: non-URL tokens not in the stop-word list. -/
def cleanTokens (text : String) (stop_words : List String) : List String :=
  (tokenize text).filter (fun w => !isURL w && !(stop_words.contains w))

/-- Modelled from the spec: `_clean_text` (missing module
`eventclf.v2.data_processing.data_processing`) strips URLs from the text;
modelled as dropping the whitespace-delimited tokens that are URLs (and
the caller-supplied extra words, `[]` at every call site in the notebook),
rejoining the rest with spaces. -/
def _clean_text (text : String) (stop_words : List String) : String :=
  String.intercalate " " (cleanTokens text stop_words)

/-- C7: the cleaned text is the space-join of the surviving tokens, none of
which is a URL. -/
theorem clean_text_strips_urls (text : String) (stop_words : List String) :
    _clean_text text stop_words
      = String.intercalate " " (cleanTokens text stop_words) ∧
    ∀ w ∈ cleanTokens text stop_words, isURL w = false := by
  refine ⟨rfl, ?_⟩
  intro w hw
  have hp := List.of_mem_filter hw
  simp only [Bool.and_eq_true, Bool.not_eq_true'] at hp
  exact hp.1

theorem clean_text_strips_urls_witness :
    isURL "hello" = false :=
  (clean_text_strips_urls "hello http://x.com world" []).2 "hello" (by decide)

/-! ## ALVA data cleaning

`clean_alva_data` lives in `location_data/src/location_data/data_processing/alva.py`,
which is not part of this snapshot; only `location_data/README.md` documents
it. -/

/-- One row of the ALVA ground-truth table (key columns per the README). -/
structure AlvaRow where
  site_name : String
  gt_total_visits : ℤ
  entry : String
  location_type : String
  region : String
  year : ℤ

/-- Modelled from the spec: standardisation of site names performed by
`clean_alva_data` (README: \"column and site names are standardised\"). -/
def standardise_site_name (s : String) : String :=
  s.toLower

/-- Duplicate-site filter keeping the first occurrence of each site name. -/
def drop_duplicate_sites (seen : List String) : List AlvaRow → List AlvaRow
  | [] => []
  | r :: rest =>
    if r.site_name ∈ seen then drop_duplicate_sites seen rest
    else r :: drop_duplicate_sites (r.site_name :: seen) rest

/-- Modelled from the spec: `clean_alva_data` (missing module
`location_data.data_processing.alva`) standardises site names and drops
duplicate site names, keeping the first occurrence. -/
def clean_alva_data (rows : List AlvaRow) : List AlvaRow :=
  drop_duplicate_sites []
    (rows.map (fun r => { r with site_name := standardise_site_name r.site_name }))

theorem drop_duplicate_sites_nodup (seen : List String) (rows : List AlvaRow) :
    ((drop_duplicate_sites seen rows).map AlvaRow.site_name).Nodup ∧
    ∀ n ∈ (drop_duplicate_sites seen rows).map AlvaRow.site_name, n ∉ seen := by
  induction rows generalizing seen with
  | nil => simp [drop_duplicate_sites]
  | cons r rest ih =>
    by_cases h : r.site_name ∈ seen
    · simp only [drop_duplicate_sites, if_pos h]
      exact ih seen
    · simp only [drop_duplicate_sites, if_neg h]
      obtain ⟨hnd, hni⟩ := ih (r.site_name :: seen)
      constructor
      · simp only [List.map_cons, List.nodup_cons]
        exact ⟨fun hmem => (hni _ hmem) (by simp), hnd⟩
      · intro n hn
        simp only [List.map_cons, List.mem_cons] at hn
        rcases hn with hn | hn
        · subst hn; exact h
        · exact fun hns => (hni n hn) (by simp [hns])

/-- C8: the dataframe returned by `clean_alva_data` has pairwise-distinct
site names. -/
theorem clean_alva_data_nodup_sites (rows : List AlvaRow) :
    ((clean_alva_data rows).map AlvaRow.site_name).Nodup := by
  unfold clean_alva_data
  exact (drop_duplicate_sites_nodup _ _).1

/-! ## LocationDataModel

`location_data/src/location_data/models/location_data_model.py` is not part
of this snapshot; only `location_data/README.md` documents it. -/

/-- The four fixed scikit-learn estimator types of the README. -/
inductive EstimatorKind where
  | linear_model
  | SVM
  | random_forest
  | xgb_model
deriving DecidableEq

/-- An underlying scikit-learn estimator, abstracted as the prediction it
produces from training data: `fitPredict trainX trainY testX`. -/
structure BaseEstimator where
  fitPredict : List (List ℚ) → List ℚ → List (List ℚ) → List ℚ

/-- Modelled from the spec: the wrapper's selection among exactly four
fixed estimator types by string key. -/
def select_base_model (key : String) : Option EstimatorKind :=
  if key = "linear_model" then some EstimatorKind.linear_model
  else if key = "SVM" then some EstimatorKind.SVM
  else if key = "random_forest" then some EstimatorKind.random_forest
  else if key = "xgb_model" then some EstimatorKind.xgb_model
  else none

/-- Modelled from the spec: the state of a `LocationDataModel` — the
selected estimator plus whatever training data `fit` stored. -/
structure LocationDataModel where
  kind : EstimatorKind
  trainX : List (List ℚ)
  trainY : List ℚ

/-- Modelled from the spec: `LocationDataModel(model=key)` selects the
estimator by string key (no estimator for an unknown key). -/
def LocationDataModel.init (key : String) : Option LocationDataModel :=
  (select_base_model key).map (fun k => ⟨k, [], []⟩)

/-- Modelled from the spec: `fit` delegates to the selected estimator by
handing it the training data. -/
def LocationDataModel.fit (m : LocationDataModel) (X : List (List ℚ))
    (y : List ℚ) : LocationDataModel :=
  { m with trainX := X, trainY := y }

/-- Modelled from the spec: `predict` delegates to the selected underlying
estimator. -/
def LocationDataModel.predict (base : EstimatorKind → BaseEstimator)
    (m : LocationDataModel) (X : List (List ℚ)) : List ℚ :=
  (base m.kind).fitPredict m.trainX m.trainY X

/-- A pickled model artifact. -/
structure PickledModel where
  payload : LocationDataModel

/-- Modelled from the spec: `save` pickles the model. -/
def LocationDataModel.save (m : LocationDataModel) : PickledModel :=
  ⟨m⟩

/-- C9: construction by string key succeeds exactly for the four fixed
estimator keys (each mapping to its own estimator type), `fit`/`predict`
delegate to the selected underlying estimator, and `save` pickles the
model. -/
theorem location_data_model_spec (base : EstimatorKind → BaseEstimator)
    (key : String) (m : LocationDataModel) (X0 : List (List ℚ)) (y0 : List ℚ)
    (X1 : List (List ℚ)) :
    ((LocationDataModel.init key).isSome ↔
      key ∈ ["linear_model", "SVM", "random_forest", "xgb_model"]) ∧
    (select_base_model "linear_model" = some EstimatorKind.linear_model ∧
     select_base_model "SVM" = some EstimatorKind.SVM ∧
     select_base_model "random_forest" = some EstimatorKind.random_forest ∧
     select_base_model "xgb_model" = some EstimatorKind.xgb_model) ∧
    (LocationDataModel.predict base (LocationDataModel.fit m X0 y0) X1
      = (base m.kind).fitPredict X0 y0 X1) ∧
    (LocationDataModel.save m).payload = m := by
  refine ⟨?_, ⟨rfl, rfl, rfl, rfl⟩, rfl, rfl⟩
  have hmap : (LocationDataModel.init key).isSome
      = (select_base_model key).isSome := by
    simp [LocationDataModel.init]
  rw [hmap]
  by_cases h1 : key = "linear_model"
  · subst h1; simp [select_base_model]
  · by_cases h2 : key = "SVM"
    · subst h2; simp [select_base_model]
    · by_cases h3 : key = "random_forest"
      · subst h3; simp [select_base_model]
      · by_cases h4 : key = "xgb_model"
        · subst h4; simp [select_base_model]
        · simp [select_base_model, h1, h2, h3, h4]

theorem location_data_model_spec_witness :
    (LocationDataModel.init "SVM").isSome = true :=
  (location_data_model_spec (fun _ => ⟨fun _ _ _ => []⟩) "SVM"
    ⟨EstimatorKind.SVM, [], []⟩ [] [] []).1.mpr (by decide)

end DCMS
